import Mathlib

/-!
Verification of the session-authentication core of `src/server.js`
(an Express web backend guarding a vehicle catalog behind a login wall).

The embedding translates the route handlers and the authentication
middleware of `server.js` into pure Lean functions.  External
collaborators (the `jsonwebtoken`, `bcryptjs` and `mongodb` libraries)
are modelled at their documented interfaces: the JWT signature is an
ideal MAC (the signature field records the exact secret and claims that
were signed), the bcrypt hash is an ideal one-way hash (a structure
recording cost factor and preimage), and the Mongo user collection is a
list with a deterministic id generator.  Time is a natural number of
seconds since the epoch; `expiresIn: '1h'` is 3600 seconds.
-/

/-- The JWT payload built at the two issuance sites of `server.js`
(lines 68 and 90): an id and an email. -/
structure Payload where
  id : String
  email : String
deriving DecidableEq, Repr

/-- A signed JWT artifact as produced by `jwt.sign`.  The `sig` field is
the ideal MAC: it records the secret and the exact claims that were
signed, so verification can recompute and compare it. -/
structure SignedToken where
  payload : Payload
  iat : Nat
  exp : Nat
  sig : String × Payload × Nat × Nat
deriving DecidableEq, Repr

/-- Seconds in the `'1h'` value passed as `expiresIn` at both
`jwt.sign` call sites (`server.js` lines 69 and 91). -/
def oneHour : Nat := 3600

/-- Model of `jwt.sign(payload, secret, { expiresIn })`: stamps
`iat = now`, `exp = now + expiresIn` and signs all claims with the
secret. -/
def jwtSign (payload : Payload) (secret : String) (expiresIn : Nat) (now : Nat) : SignedToken :=
  { payload := payload
    iat := now
    exp := now + expiresIn
    sig := (secret, payload, now, now + expiresIn) }

/-- Model of `jwt.verify(token, secret, callback)`: `none` models the
callback receiving an error (missing secret, signature mismatch, or
expiry), `some` models the callback receiving the decoded user.
`jwt.verify(token, undefined, cb)` always errors, which models a process
whose `JWT_SECRET` environment variable is absent. -/
def jwtVerify (token : SignedToken) (secret : Option String) (now : Nat) : Option Payload :=
  match secret with
  | none => none
  | some s =>
    if token.sig = (s, token.payload, token.iat, token.exp) ∧ now ≤ token.exp then
      some token.payload
    else
      none

/-- The two ways the `authenticateToken` middleware can resolve a
request: call `next()` with `req.user` attached, or redirect. -/
inductive GateResult where
  | forward (user : Payload)
  | redirect (location : String)
deriving DecidableEq, Repr

/-- Model of the `authenticateToken` middleware (`server.js` lines
39-53): read `req.cookies.token`; with no token redirect to
`/login.html`; otherwise verify and either redirect (on error) or
attach the decoded user and forward. -/
def authenticateToken (cookieToken : Option SignedToken) (secret : Option String)
    (now : Nat) : GateResult :=
  match cookieToken with
  | none => .redirect "/login.html"
  | some token =>
    match jwtVerify token secret now with
    | none => .redirect "/login.html"
    | some user => .forward user

/-- An ideal bcrypt hash: records the cost factor and the hashed
password, and nothing is recoverable from it in the model except by
`bcryptCompare`. -/
structure BcryptHash where
  cost : Nat
  preimage : String
deriving DecidableEq, Repr

/-- Model of `bcrypt.hash(password, cost)` from the external `bcryptjs`
collaborator. -/
def bcryptHash (password : String) (cost : Nat) : BcryptHash :=
  { cost := cost, preimage := password }

/-- Model of `bcrypt.compare(password, hash)`. -/
def bcryptCompare (password : String) (hash : BcryptHash) : Bool :=
  password == hash.preimage

/-- A user document in the `users` collection: `server.js` line 85
builds `\x7b name, mobile, email, password: hashedPassword \x7d` and the
Mongo driver assigns `_id` during `insertOne`. -/
structure User where
  id : String
  name : String
  mobile : String
  email : String
  password : BcryptHash
deriving DecidableEq, Repr

/-- The `users` collection of the external Mongo collaborator, with the
driver's id generator made explicit. -/
structure UserStore where
  users : List User
  nextId : Nat
deriving DecidableEq, Repr

/-- Model of `db.collection('users').findOne({ email })`. -/
def findOne (store : UserStore) (email : String) : Option User :=
  store.users.find? (fun u => u.email == email)

/-- Model of `db.collection('users').insertOne(newUser)`: the driver
assigns a fresh `_id` to the inserted document and returns it (the JS
driver mutates `newUser._id` in place; here the assigned document is
returned). -/
def insertOne (store : UserStore) (name mobile email : String) (password : BcryptHash) :
    UserStore × User :=
  let assigned : User :=
    { id := toString store.nextId, name := name, mobile := mobile
      email := email, password := password }
  ({ users := store.users ++ [assigned], nextId := store.nextId + 1 }, assigned)

/-- The cookie side effect of a response: nothing, `res.cookie('token',
token, \x7b httpOnly: true \x7d)`, or `res.clearCookie('token')`. -/
inductive CookieOp where
  | keep
  | set (token : SignedToken) (httpOnly : Bool)
  | clear
deriving DecidableEq, Repr

/-- The externally observable part of a handler response: the cookie
operation, an optional redirect location, and an optional error
status. -/
structure HttpResponse where
  cookie : CookieOp
  redirectTo : Option String
  status : Option Nat
deriving DecidableEq, Repr

/-- The uniform failure response of the login route (`server.js` line
64). -/
def invalidLoginResponse : HttpResponse :=
  { cookie := .keep, redirectTo := some "/login.html?error=invalid", status := none }

/-- Model of `app.post("/login")` (`server.js` lines 58-78): look the
user up by email; if the lookup misses or `bcrypt.compare` fails,
redirect to `/login.html?error=invalid`; otherwise sign a JWT over
`\x7b id, email \x7d` with a 1 hour expiry, set it as an httpOnly
cookie and redirect to `/home`.  `jwt.sign` with an absent secret
throws, which the catch block turns into a 500 response. -/
def loginHandler (store : UserStore) (secret : Option String) (now : Nat)
    (email password : String) : HttpResponse :=
  match findOne store email with
  | none => invalidLoginResponse
  | some user =>
    if bcryptCompare password user.password then
      match secret with
      | none => { cookie := .keep, redirectTo := none, status := some 500 }
      | some s =>
        { cookie := .set (jwtSign { id := user.id, email := user.email } s oneHour now) true
          redirectTo := some "/home"
          status := none }
    else
      invalidLoginResponse

/-- Model of `app.post("/signup")` (`server.js` lines 81-98): hash the
password with cost 10, insert the new user, then sign a JWT over the
inserted document's id and email and respond exactly as a successful
login does. -/
def signupHandler (store : UserStore) (secret : Option String) (now : Nat)
    (name mobile email password : String) : UserStore × HttpResponse :=
  let hashedPassword := bcryptHash password 10
  let inserted := insertOne store name mobile email hashedPassword
  match secret with
  | none => (inserted.1, { cookie := .keep, redirectTo := none, status := some 500 })
  | some s =>
    (inserted.1,
      { cookie :=
          .set (jwtSign { id := inserted.2.id, email := inserted.2.email } s oneHour now) true
        redirectTo := some "/home"
        status := none })

/-- Model of `app.get("/logout")` (`server.js` lines 101-103): clear the
cookie and redirect; no server-side state is read or written. -/
def logoutHandler : HttpResponse :=
  { cookie := .clear, redirectTo := some "/login.html", status := none }

/-- The environment variables `server.js` reads: `JWT_SECRET` and
`PORT`. -/
structure ProcessEnv where
  jwtSecret : Option String
  port : Option Nat
deriving DecidableEq, Repr

/-- How `startServer` can end: `app.listen(port)` or
`process.exit(1)`. -/
inductive StartResult where
  | listening (port : Nat)
  | exited (code : Nat)
deriving DecidableEq, Repr

/-- Model of `const port = process.env.PORT || 1337` (`server.js` line
13). -/
def effectivePort (env : ProcessEnv) : Nat := env.port.getD 1337

/-- Model of `startServer` (`server.js` lines 161-173): connect to
Mongo; on success start listening, on failure exit with code 1.
`mongoOk` models whether `client.connect()` resolves.  Nothing else is
checked before the server starts accepting requests. -/
def startServer (env : ProcessEnv) (mongoOk : Bool) : StartResult :=
  if mongoOk then .listening (effectivePort env) else .exited 1

/-- A vehicle document as stored by the registration route
(`server.js` lines 121-128). -/
structure Vehicle where
  name : String
  vehicleType : String
  vehicleNumber : String
  vehicleImage : Option String
  ownerId : String
deriving DecidableEq, Repr

/-- The property names every JS object literal inherits from
`Object.prototype`, all bound to truthy function or object values.
`vehicleTypeMap[t]` for these `t` is a prototype-chain hit, not
`undefined`. -/
def objectPrototypeProps : List String :=
  ["constructor", "hasOwnProperty", "isPrototypeOf", "propertyIsEnumerable",
   "toLocaleString", "toString", "valueOf", "__defineGetter__", "__defineSetter__",
   "__lookupGetter__", "__lookupSetter__", "__proto__"]

/-- The result of the JS property access `vehicleTypeMap[t]`:
`undefined` (falsy, so line 147's `!vehicleType` takes the 404 branch),
an own string property (truthy), or a truthy non-string value inherited
from `Object.prototype` (also skips the 404 branch). -/
inductive JsLookup where
  | undefined
  | ownString (s : String)
  | inherited (name : String)
deriving DecidableEq, Repr

/-- The fixed `vehicleTypeMap` object literal of `server.js` lines
139-143 under JS bracket lookup: nine own URL path keys mapping to
stored `vehicleType` strings, then the prototype chain — names
inherited from `Object.prototype` yield a truthy non-string value —
and `undefined` for everything else. -/
def vehicleTypeMap (t : String) : JsLookup :=
  if t = "excavators" then .ownString "Excavator"
  else if t = "bulldozers" then .ownString "Bulldozer"
  else if t = "mini-excavators" then .ownString "Miniexcavator"
  else if t = "backhoe-loaders" then .ownString "Backhoe Loader"
  else if t = "loaders" then .ownString "Loader"
  else if t = "motor-graders" then .ownString "Motor Grader"
  else if t = "piling-rigs" then .ownString "Piling Rig"
  else if t = "augers" then .ownString "Auger"
  else if t = "tractors" then .ownString "Tractor"
  else if t ∈ objectPrototypeProps then .inherited t
  else .undefined

/-- The nine own keys of `vehicleTypeMap`, in source order. -/
def vehicleTypeKeys : List String :=
  ["excavators", "bulldozers", "mini-excavators", "backhoe-loaders", "loaders",
   "motor-graders", "piling-rigs", "augers", "tractors"]

/-- A value the handler can pass as the `vehicleType` filter of
`db.collection('vehicles').find({ vehicleType })`: a string, or the
truthy non-string object inherited from `Object.prototype`. -/
inductive QueryFilter where
  | str (s : String)
  | inheritedObject (name : String)
deriving DecidableEq, Repr

/-- Model of `db.collection('vehicles').find({ vehicleType })`.  Stored
`vehicleType` fields are the strings submitted at registration
(`server.js` line 123), so a string filter matches by equality and a
non-string (function or object) filter matches no stored document. -/
def findVehicles (vehicles : List Vehicle) (f : QueryFilter) : List Vehicle :=
  match f with
  | .str s => vehicles.filter (fun v => v.vehicleType == s)
  | .inheritedObject _ => []

/-- The externally observable outcome of the `/vehicles/:type` route. -/
inductive RouteOutcome where
  | redirect (location : String)
  | notFound (status : Nat) (message : String)
  | rendered (view : String) (data : List Vehicle)
deriving DecidableEq, Repr

/-- Model of `app.get("/vehicles/:type")` with its `authenticateToken`
guard (`server.js` lines 145-157).  The second component is the list of
`vehicleType` filters sent to the vehicles collection, so that "no
storage query is performed" is observable.  Only a falsy lookup
(`undefined`) takes the 404 branch of line 147; both an own string and
an inherited truthy value flow into the `find` call. -/
def vehiclesRoute (cookieToken : Option SignedToken) (secret : Option String) (now : Nat)
    (vehicles : List Vehicle) (t : String) : RouteOutcome × List QueryFilter :=
  match authenticateToken cookieToken secret now with
  | .redirect loc => (.redirect loc, [])
  | .forward _ =>
    match vehicleTypeMap t with
    | .undefined => (.notFound 404 "Vehicle category not found.", [])
    | .ownString vehicleType =>
      (.rendered "excavator" (findVehicles vehicles (.str vehicleType)), [.str vehicleType])
    | .inherited name =>
      (.rendered "excavator" (findVehicles vehicles (.inheritedObject name)),
        [.inheritedObject name])

/-!
Bit-level view of the credential artifact, for the tamper-evidence
property.  A JWT travels as a byte string; here a token whose claims
fit in `W` bits each is laid out as five fixed-width binary fields
(id, email, iat, exp, mac), and the MAC is ideal: an injective function
of the secret and the signed claims (built from the `Nat.pair` pairing
function).  Claims and secret are naturals (strings are reading their
numeric codes).
-/

/-- The ideal MAC over the secret and the four signed claims. -/
def macNat (secret id email iat exp : Nat) : Nat :=
  Nat.pair secret (Nat.pair id (Nat.pair email (Nat.pair iat exp)))

/-- A decoded bit-level token: four claims and a MAC. -/
structure TokenN where
  id : Nat
  email : Nat
  iat : Nat
  exp : Nat
  mac : Nat
deriving DecidableEq, Repr

/-- Bit-level `jwt.sign`: stamp the claims and attach their MAC. -/
def signN (secret id email iat exp : Nat) : TokenN :=
  { id := id, email := email, iat := iat, exp := exp
    mac := macNat secret id email iat exp }

/-- Bit-level `jwt.verify`: recompute the MAC over the received claims
and compare, then check expiry. -/
def verifyN (secret now : Nat) (t : TokenN) : Option (Nat × Nat) :=
  if t.mac = macNat secret t.id t.email t.iat t.exp ∧ now ≤ t.exp then
    some (t.id, t.email)
  else
    none

/-- Little-endian fixed-width binary encoding of a natural. -/
def encNat : Nat → Nat → List Bool
  | 0, _ => []
  | W + 1, n => (n % 2 = 1) :: encNat W (n / 2)

/-- Little-endian binary decoding of a bit list. -/
def decNat : List Bool → Nat
  | [] => 0
  | b :: bs => (if b then 1 else 0) + 2 * decNat bs

/-- Wire format of a token: five fields of `W` bits each. -/
def encTok (W : Nat) (t : TokenN) : List Bool :=
  encNat W t.id ++ (encNat W t.email ++ (encNat W t.iat ++ (encNat W t.exp ++ encNat W t.mac)))

/-- Parse the wire format back into a token. -/
def decTok (W : Nat) (bits : List Bool) : TokenN :=
  { id := decNat (bits.take W)
    email := decNat ((bits.drop W).take W)
    iat := decNat (((bits.drop W).drop W).take W)
    exp := decNat ((((bits.drop W).drop W).drop W).take W)
    mac := decNat ((((bits.drop W).drop W).drop W).drop W) }

/-- Flip the bit at position `i` of a bit list (identity past the
end). -/
def flipBit : Nat → List Bool → List Bool
  | _, [] => []
  | 0, b :: bs => (!b) :: bs
  | i + 1, b :: bs => b :: flipBit i bs

theorem encNat_length (W n : Nat) : (encNat W n).length = W := by
  induction W generalizing n with
  | zero => rfl
  | succ W ih => simp [encNat, ih]

theorem decNat_encNat {W n : Nat} (h : n < 2 ^ W) : decNat (encNat W n) = n := by
  induction W generalizing n with
  | zero =>
    interval_cases n
    rfl
  | succ W ih =>
    have hdiv : n / 2 < 2 ^ W := by
      have h2 : (2 : Nat) ^ (W + 1) = 2 ^ W * 2 := by ring
      omega
    have := ih hdiv
    simp only [encNat, decNat, this]
    rcases Nat.mod_two_eq_zero_or_one n with h0 | h1
    · simp [h0]
      omega
    · simp [h1]
      omega

theorem flipBit_length (i : Nat) (l : List Bool) : (flipBit i l).length = l.length := by
  induction l generalizing i with
  | nil => cases i <;> rfl
  | cons b bs ih =>
    cases i with
    | zero => rfl
    | succ i => simp [flipBit, ih]

theorem decNat_flipBit {i : Nat} {l : List Bool} (h : i < l.length) :
    decNat (flipBit i l) ≠ decNat l := by
  induction l generalizing i with
  | nil => simp at h
  | cons b bs ih =>
    cases i with
    | zero =>
      cases b <;> simp [flipBit, decNat]
    | succ i =>
      have hi : i < bs.length := by simpa using h
      have := ih hi
      simp only [flipBit, decNat]
      omega

theorem flipBit_append_left {i : Nat} (l m : List Bool) (h : i < l.length) :
    flipBit i (l ++ m) = flipBit i l ++ m := by
  induction l generalizing i with
  | nil => simp at h
  | cons b bs ih =>
    cases i with
    | zero => rfl
    | succ i =>
      have hi : i < bs.length := by simpa using h
      simp [flipBit, ih hi]

theorem flipBit_append_right {i : Nat} (l m : List Bool) (h : l.length ≤ i) :
    flipBit i (l ++ m) = l ++ flipBit (i - l.length) m := by
  induction l generalizing i with
  | nil => simp
  | cons b bs ih =>
    cases i with
    | zero => simp at h
    | succ i =>
      have hi : bs.length ≤ i := by simpa using h
      simp [flipBit, ih hi]

theorem take_length_append (l m : List Bool) : (l ++ m).take l.length = l := by
  induction l with
  | nil => rfl
  | cons b bs ih => simp [ih]

theorem drop_length_append (l m : List Bool) : (l ++ m).drop l.length = m := by
  induction l with
  | nil => rfl
  | cons b bs ih => simp [ih]

/-! Claim theorems. -/

/-- A concrete payload used by witnesses. -/
def demoPayload : Payload := { id := "1", email := "a@x.com" }

/-- A concrete token issued with the demo payload at time 1000. -/
def demoToken : SignedToken := jwtSign demoPayload "topsecret" oneHour 1000

/-- A concrete stored user whose password hash is `bcryptHash "secret" 10`. -/
def demoUser : User :=
  { id := "1", name := "N", mobile := "M", email := "a@x.com"
    password := bcryptHash "secret" 10 }

/-- A concrete user store holding only `demoUser`. -/
def demoStore : UserStore := { users := [demoUser], nextId := 2 }

/-- C1: the Gate resolves every request to exactly one of forwarding
with an attached identity or redirecting to `/login.html` (never both,
never neither), and it forwards only when the cookie carried a token
that `jwt.verify` accepted with the request's secret and clock. -/
theorem gate_totality_and_attachment
    (cookieToken : Option SignedToken) (secret : Option String) (now : Nat) :
    ((∃ u, authenticateToken cookieToken secret now = .forward u) ∨
      authenticateToken cookieToken secret now = .redirect "/login.html")
    ∧ (∀ u loc, ¬(authenticateToken cookieToken secret now = .forward u ∧
        authenticateToken cookieToken secret now = .redirect loc))
    ∧ (∀ u, authenticateToken cookieToken secret now = .forward u →
        ∃ token, cookieToken = some token ∧ jwtVerify token secret now = some u) := by
  refine ⟨?_, ?_, ?_⟩
  · cases cookieToken with
    | none => exact Or.inr rfl
    | some token =>
      cases hv : jwtVerify token secret now with
      | none => exact Or.inr (by simp [authenticateToken, hv])
      | some u => exact Or.inl ⟨u, by simp [authenticateToken, hv]⟩
  · rintro u loc ⟨h1, h2⟩
    rw [h1] at h2
    exact GateResult.noConfusion h2
  · intro u hu
    cases cookieToken with
    | none => simp [authenticateToken] at hu
    | some token =>
      refine ⟨token, rfl, ?_⟩
      cases hv : jwtVerify token secret now with
      | none => simp [authenticateToken, hv] at hu
      | some v =>
        simp [authenticateToken, hv] at hu
        rw [hu]

/-- Witness for C1 at a concrete forwarded request. -/
theorem gate_totality_and_attachment_witness :
    authenticateToken (some demoToken) (some "topsecret") 1000 = .forward demoPayload
    ∧ ∃ token, (some demoToken : Option SignedToken) = some token
        ∧ jwtVerify token (some "topsecret") 1000 = some demoPayload :=
  ⟨by decide,
    (gate_totality_and_attachment (some demoToken) (some "topsecret") 1000).2.2 demoPayload
      (by decide)⟩

/-- C2: verifying a credential issued for a (subject id, subject email)
pair, before its expiry and with the same signing secret, succeeds and
returns exactly that pair. -/
theorem roundtrip_law (id email secret : String) (issuedAt t : Nat)
    (h : t < issuedAt + oneHour) :
    jwtVerify (jwtSign { id := id, email := email } secret oneHour issuedAt) (some secret) t
      = some { id := id, email := email } := by
  simp [jwtVerify, jwtSign]
  omega

/-- Witness for C2 at a concrete pair and time. -/
theorem roundtrip_law_witness :
    5 < 0 + oneHour
    ∧ jwtVerify (jwtSign { id := "1", email := "a@x.com" } "topsecret" oneHour 0)
        (some "topsecret") 5 = some { id := "1", email := "a@x.com" } :=
  ⟨by decide, roundtrip_law "1" "a@x.com" "topsecret" 0 5 (by decide)⟩

/-- C3: both issuance sites stamp a fixed 3600 second (1 hour) expiry,
and verification at any time strictly after `issued_at` plus that TTL is
rejected. -/
theorem ttl_fixed_and_expiry (p : Payload) (secret : String) (now ε : Nat) (hε : 0 < ε) :
    (jwtSign p secret oneHour now).iat = now
    ∧ (jwtSign p secret oneHour now).exp = now + oneHour
    ∧ oneHour = 3600
    ∧ jwtVerify (jwtSign p secret oneHour now) (some secret) (now + oneHour + ε) = none
    ∧ (∀ store email password token ho,
        (loginHandler store (some secret) now email password).cookie = .set token ho →
        token.exp = now + oneHour)
    ∧ (∀ store name mobile email password token ho,
        ((signupHandler store (some secret) now name mobile email password).2).cookie
          = .set token ho →
        token.exp = now + oneHour) := by
  refine ⟨rfl, rfl, rfl, ?_, ?_, ?_⟩
  · simp [jwtVerify, jwtSign]
    omega
  · intro store email password token ho hset
    unfold loginHandler at hset
    cases hf : findOne store email with
    | none => rw [hf] at hset; simp [invalidLoginResponse] at hset
    | some user =>
      rw [hf] at hset
      by_cases hc : bcryptCompare password user.password
      · simp [hc] at hset
        rw [← hset.1]
        rfl
      · simp [hc, invalidLoginResponse] at hset
  · intro store name mobile email password token ho hset
    unfold signupHandler at hset
    simp at hset
    rw [← hset.1]
    rfl

/-- Witness for C3 at a concrete credential and epsilon. -/
theorem ttl_fixed_and_expiry_witness :
    0 < 1
    ∧ jwtVerify (jwtSign demoPayload "topsecret" oneHour 1000) (some "topsecret")
        (1000 + oneHour + 1) = none :=
  ⟨Nat.one_pos, (ttl_fixed_and_expiry demoPayload "topsecret" 1000 1 Nat.one_pos).2.2.2.1⟩

/-- C4: a request with no token and a request whose token fails
verification (malformed, bad signature, or expired) receive the same
observable Gate response: a redirect to `/login.html`. -/
theorem uniform_rejection (token : SignedToken) (secret : Option String) (now : Nat)
    (hbad : jwtVerify token secret now = none) :
    authenticateToken (some token) secret now = authenticateToken none secret now
    ∧ authenticateToken none secret now = .redirect "/login.html" := by
  simp [authenticateToken, hbad]

/-- Witness for C4 at a concrete expired token. -/
theorem uniform_rejection_witness :
    jwtVerify demoToken (some "topsecret") 99999 = none
    ∧ authenticateToken (some demoToken) (some "topsecret") 99999
        = authenticateToken none (some "topsecret") 99999 :=
  ⟨by decide, (uniform_rejection demoToken (some "topsecret") 99999 (by decide)).1⟩

/-- C5: login fails with the single uniform
`/login.html?error=invalid` redirect and no cookie whenever the lookup
misses or the hash comparison fails, and on success sets an httpOnly
cookie holding a 1 hour token over the user's id and email and
redirects to `/home`. -/
theorem login_behavior (store : UserStore) (secret : String) (now : Nat)
    (email password : String) :
    (findOne store email = none →
      loginHandler store (some secret) now email password = invalidLoginResponse)
    ∧ (∀ user, findOne store email = some user →
        bcryptCompare password user.password = false →
        loginHandler store (some secret) now email password = invalidLoginResponse)
    ∧ (∀ user, findOne store email = some user →
        bcryptCompare password user.password = true →
        loginHandler store (some secret) now email password =
          { cookie := .set (jwtSign { id := user.id, email := user.email } secret oneHour now) true
            redirectTo := some "/home"
            status := none })
    ∧ invalidLoginResponse.cookie = .keep
    ∧ invalidLoginResponse.redirectTo = some "/login.html?error=invalid" := by
  refine ⟨?_, ?_, ?_, rfl, rfl⟩
  · intro hf
    unfold loginHandler
    rw [hf]
  · intro user hf hc
    unfold loginHandler
    rw [hf]
    simp [hc]
  · intro user hf hc
    unfold loginHandler
    rw [hf]
    simp [hc]

/-- Witness for C5: both the wrong-password failure and the success
case at a concrete store. -/
theorem login_behavior_witness :
    findOne demoStore "a@x.com" = some demoUser
    ∧ bcryptCompare "wrong" demoUser.password = false
    ∧ bcryptCompare "secret" demoUser.password = true
    ∧ loginHandler demoStore (some "topsecret") 1000 "a@x.com" "wrong" = invalidLoginResponse
    ∧ loginHandler demoStore (some "topsecret") 1000 "a@x.com" "secret" =
        { cookie := .set (jwtSign { id := "1", email := "a@x.com" } "topsecret" oneHour 1000) true
          redirectTo := some "/home"
          status := none } :=
  ⟨by decide, by decide, by decide,
    (login_behavior demoStore "topsecret" 1000 "a@x.com" "wrong").2.1 demoUser (by decide)
      (by decide),
    (login_behavior demoStore "topsecret" 1000 "a@x.com" "secret").2.2.1 demoUser (by decide)
      (by decide)⟩

/-- The user document as persisted by the signup route before the token
is issued. -/
def signupUser (store : UserStore) (name mobile email password : String) : User :=
  (insertOne store name mobile email (bcryptHash password 10)).2

/-- The token the signup route issues over the persisted document's id
and email. -/
def signupToken (store : UserStore) (secret : String) (now : Nat)
    (name mobile email password : String) : SignedToken :=
  jwtSign
    { id := (signupUser store name mobile email password).id
      email := (signupUser store name mobile email password).email }
    secret oneHour now

/-- C6: signup persists the new user with the bcrypt-hashed password,
then issues a credential over the persisted id and email and responds
with the same cookie-and-redirect shape as login; replaying that
credential to a protected route before expiry is forwarded with a
RequestIdentity whose email is the signed-up email. -/
theorem signup_auto_login (store : UserStore) (secret : String) (now t : Nat)
    (name mobile email password : String) (hbefore : t ≤ now + oneHour) :
    (signupHandler store (some secret) now name mobile email password).1.users
      = store.users ++ [signupUser store name mobile email password]
    ∧ (signupUser store name mobile email password).email = email
    ∧ (signupUser store name mobile email password).password = bcryptHash password 10
    ∧ (signupHandler store (some secret) now name mobile email password).2
        = { cookie := .set (signupToken store secret now name mobile email password) true
            redirectTo := some "/home"
            status := none }
    ∧ authenticateToken (some (signupToken store secret now name mobile email password))
        (some secret) t
        = .forward { id := (signupUser store name mobile email password).id, email := email } := by
  refine ⟨rfl, rfl, rfl, rfl, ?_⟩
  simp [authenticateToken, jwtVerify, signupToken, jwtSign, hbefore]
  rfl

/-- Witness for C6 at a concrete signup and replay. -/
theorem signup_auto_login_witness :
    1000 ≤ 1000 + oneHour
    ∧ authenticateToken
        (some (signupToken demoStore "topsecret" 1000 "N" "M" "b@x.com" "pw"))
        (some "topsecret") 1000
        = .forward { id := (signupUser demoStore "N" "M" "b@x.com" "pw").id
                     email := "b@x.com" } :=
  ⟨by decide,
    (signup_auto_login demoStore "topsecret" 1000 1000 "N" "M" "b@x.com" "pw"
      (by decide)).2.2.2.2⟩

/-- C7: logout only clears the client-side cookie and redirects to the
login page; a cached token replayed afterwards, while its signature
matches and it is unexpired, is still forwarded (the Gate consults no
server-side state), while a request with no token is redirected. -/
theorem logout_stateless_replay (secret : String) (token : SignedToken) (now : Nat)
    (hsig : token.sig = (secret, token.payload, token.iat, token.exp))
    (hfresh : now ≤ token.exp) :
    logoutHandler = { cookie := .clear, redirectTo := some "/login.html", status := none }
    ∧ authenticateToken (some token) (some secret) now = .forward token.payload
    ∧ authenticateToken none (some secret) now = .redirect "/login.html" := by
  refine ⟨rfl, ?_, rfl⟩
  simp [authenticateToken, jwtVerify, hsig, hfresh]

/-- Witness for C7: replaying the demo token after logout still
forwards. -/
theorem logout_stateless_replay_witness :
    demoToken.sig = ("topsecret", demoToken.payload, demoToken.iat, demoToken.exp)
    ∧ 2000 ≤ demoToken.exp
    ∧ authenticateToken (some demoToken) (some "topsecret") 2000 = .forward demoToken.payload :=
  ⟨by decide, by decide,
    (logout_stateless_replay "topsecret" demoToken 2000 (by decide) (by decide)).2.1⟩

/-- C8 counterexample: with `JWT_SECRET` absent from the environment
but the database reachable, `startServer` still reaches `app.listen`,
so the process does begin accepting requests without the secret. -/
theorem startup_without_secret_listens :
    ({ jwtSecret := none, port := some 1337 } : ProcessEnv).jwtSecret = none
    ∧ startServer { jwtSecret := none, port := some 1337 } true = .listening 1337 :=
  ⟨rfl, rfl⟩

/-- C8 amended: startup checks only database connectivity and is
independent of the signing secret; an absent secret surfaces
per-request instead — the Gate rejects every token with a redirect, and
a login that reaches `jwt.sign` responds 500. -/
theorem startup_ignores_secret (env : ProcessEnv) (mongoOk : Bool) (now : Nat)
    (token : SignedToken) :
    startServer env mongoOk = startServer { env with jwtSecret := none } mongoOk
    ∧ (mongoOk = true → startServer env mongoOk = .listening (effectivePort env))
    ∧ (mongoOk = false → startServer env mongoOk = .exited 1)
    ∧ authenticateToken (some token) none now = .redirect "/login.html"
    ∧ authenticateToken none none now = .redirect "/login.html"
    ∧ (∀ store user email password, findOne store email = some user →
        bcryptCompare password user.password = true →
        loginHandler store none now email password
          = { cookie := .keep, redirectTo := none, status := some 500 }) := by
  refine ⟨by cases mongoOk <;> rfl, fun h => by rw [h]; rfl, fun h => by rw [h]; rfl,
    rfl, rfl, ?_⟩
  intro store user email password hf hc
  unfold loginHandler
  rw [hf]
  simp [hc]

/-- Witness for C8 amended: a concrete secretless process listens and
fails a concrete login with 500. -/
theorem startup_ignores_secret_witness :
    startServer { jwtSecret := none, port := some 1337 } true = .listening 1337
    ∧ loginHandler demoStore none 1000 "a@x.com" "secret"
        = { cookie := .keep, redirectTo := none, status := some 500 } :=
  ⟨(startup_ignores_secret { jwtSecret := none, port := some 1337 } true 1000 demoToken).2.1
      rfl,
    (startup_ignores_secret { jwtSecret := none, port := some 1337 } true 1000 demoToken).2.2.2.2.2
      demoStore demoUser "a@x.com" "secret" (by decide) (by decide)⟩

theorem mem_vehicleTypeKeys_elim {t : String} (hmem : t ∈ vehicleTypeKeys)
    (h1 : ¬t = "excavators") (h2 : ¬t = "bulldozers") (h3 : ¬t = "mini-excavators")
    (h4 : ¬t = "backhoe-loaders") (h5 : ¬t = "loaders") (h6 : ¬t = "motor-graders")
    (h7 : ¬t = "piling-rigs") (h8 : ¬t = "augers") (h9 : ¬t = "tractors") : False := by
  simp only [vehicleTypeKeys, List.mem_cons, List.not_mem_nil, or_false] at hmem
  tauto

theorem vehicleTypeMap_spec (t : String) :
    (t ∈ vehicleTypeKeys ∧ ∃ vt, vehicleTypeMap t = .ownString vt)
    ∨ (t ∉ vehicleTypeKeys ∧ t ∈ objectPrototypeProps ∧ vehicleTypeMap t = .inherited t)
    ∨ (t ∉ vehicleTypeKeys ∧ t ∉ objectPrototypeProps ∧ vehicleTypeMap t = .undefined) := by
  by_cases h1 : t = "excavators"
  · subst h1; exact Or.inl ⟨by decide, "Excavator", by decide⟩
  by_cases h2 : t = "bulldozers"
  · subst h2; exact Or.inl ⟨by decide, "Bulldozer", by decide⟩
  by_cases h3 : t = "mini-excavators"
  · subst h3; exact Or.inl ⟨by decide, "Miniexcavator", by decide⟩
  by_cases h4 : t = "backhoe-loaders"
  · subst h4; exact Or.inl ⟨by decide, "Backhoe Loader", by decide⟩
  by_cases h5 : t = "loaders"
  · subst h5; exact Or.inl ⟨by decide, "Loader", by decide⟩
  by_cases h6 : t = "motor-graders"
  · subst h6; exact Or.inl ⟨by decide, "Motor Grader", by decide⟩
  by_cases h7 : t = "piling-rigs"
  · subst h7; exact Or.inl ⟨by decide, "Piling Rig", by decide⟩
  by_cases h8 : t = "augers"
  · subst h8; exact Or.inl ⟨by decide, "Auger", by decide⟩
  by_cases h9 : t = "tractors"
  · subst h9; exact Or.inl ⟨by decide, "Tractor", by decide⟩
  have hnmem : t ∉ vehicleTypeKeys :=
    fun hmem => mem_vehicleTypeKeys_elim hmem h1 h2 h3 h4 h5 h6 h7 h8 h9
  by_cases h10 : t ∈ objectPrototypeProps
  · refine Or.inr (Or.inl ⟨hnmem, h10, ?_⟩)
    unfold vehicleTypeMap
    rw [if_neg h1, if_neg h2, if_neg h3, if_neg h4, if_neg h5, if_neg h6, if_neg h7,
      if_neg h8, if_neg h9, if_pos h10]
  · refine Or.inr (Or.inr ⟨hnmem, h10, ?_⟩)
    unfold vehicleTypeMap
    rw [if_neg h1, if_neg h2, if_neg h3, if_neg h4, if_neg h5, if_neg h6, if_neg h7,
      if_neg h8, if_neg h9, if_neg h10]

/-- C10 counterexample: `"constructor"` is not one of the nine map
keys, yet on an authenticated request the handler does not respond 404
— the JS lookup `vehicleTypeMap["constructor"]` is a truthy
prototype-chain hit, so line 147's guard is skipped — and a storage
query carrying the inherited non-string value is sent. -/
theorem vehicles_route_prototype_counterexample :
    "constructor" ∉ vehicleTypeKeys
    ∧ authenticateToken (some demoToken) (some "topsecret") 1000 = .forward demoPayload
    ∧ vehiclesRoute (some demoToken) (some "topsecret") 1000 [] "constructor"
        ≠ (.notFound 404 "Vehicle category not found.", [])
    ∧ (vehiclesRoute (some demoToken) (some "topsecret") 1000 [] "constructor").2
        = [.inheritedObject "constructor"] :=
  ⟨by decide, by decide, by decide, by decide⟩

/-- C10 amended: on an authenticated request, a `:type` that is neither
one of the nine map keys nor a property name inherited from
`Object.prototype` yields a 404 with no storage query; one of the nine
keys queries exactly the mapped `vehicleType` string; and an inherited
`Object.prototype` name skips the 404 and sends a storage query whose
filter is the inherited non-string value (which matches no stored
document). -/
theorem vehicles_route_typemap (cookieToken : Option SignedToken) (secret : Option String)
    (now : Nat) (vehicles : List Vehicle) (t : String) (u : Payload)
    (hauth : authenticateToken cookieToken secret now = .forward u) :
    (vehicleTypeMap t = .undefined →
      vehiclesRoute cookieToken secret now vehicles t
        = (.notFound 404 "Vehicle category not found.", []))
    ∧ (∀ vt, vehicleTypeMap t = .ownString vt →
      vehiclesRoute cookieToken secret now vehicles t
        = (.rendered "excavator" (findVehicles vehicles (.str vt)), [.str vt]))
    ∧ (∀ name, vehicleTypeMap t = .inherited name →
      vehiclesRoute cookieToken secret now vehicles t
        = (.rendered "excavator" (findVehicles vehicles (.inheritedObject name)),
            [.inheritedObject name]))
    ∧ ((∃ vt, vehicleTypeMap t = .ownString vt) ↔ t ∈ vehicleTypeKeys)
    ∧ (vehicleTypeMap t = .undefined ↔ t ∉ vehicleTypeKeys ∧ t ∉ objectPrototypeProps) := by
  refine ⟨?_, ?_, ?_, ?_, ?_⟩
  · intro hmap
    unfold vehiclesRoute
    rw [hauth, hmap]
  · intro vt hmap
    unfold vehiclesRoute
    rw [hauth, hmap]
  · intro name hmap
    unfold vehiclesRoute
    rw [hauth, hmap]
  · rcases vehicleTypeMap_spec t with ⟨hmem, hvt⟩ | ⟨hnmem, -, heq⟩ | ⟨hnmem, -, heq⟩
    · exact iff_of_true hvt hmem
    · refine iff_of_false ?_ hnmem
      rintro ⟨vt, hvt⟩
      rw [heq] at hvt
      exact JsLookup.noConfusion hvt
    · refine iff_of_false ?_ hnmem
      rintro ⟨vt, hvt⟩
      rw [heq] at hvt
      exact JsLookup.noConfusion hvt
  · rcases vehicleTypeMap_spec t with ⟨hmem, vt, hvt⟩ | ⟨-, hprops, heq⟩ | ⟨hnmem, hnprops, heq⟩
    · refine iff_of_false ?_ (fun h => h.1 hmem)
      rw [hvt]
      exact fun h => JsLookup.noConfusion h
    · refine iff_of_false ?_ (fun h => h.2 hprops)
      rw [heq]
      exact fun h => JsLookup.noConfusion h
    · exact iff_of_true heq ⟨hnmem, hnprops⟩

/-- Witness for C10 amended: a concrete unmapped type, a concrete
mapped type, and a concrete inherited prototype name. -/
theorem vehicles_route_typemap_witness :
    authenticateToken (some demoToken) (some "topsecret") 1000 = .forward demoPayload
    ∧ vehiclesRoute (some demoToken) (some "topsecret") 1000 [] "quadcopters"
        = (.notFound 404 "Vehicle category not found.", [])
    ∧ vehiclesRoute (some demoToken) (some "topsecret") 1000 [] "excavators"
        = (.rendered "excavator" [], [.str "Excavator"])
    ∧ vehiclesRoute (some demoToken) (some "topsecret") 1000 [] "toString"
        = (.rendered "excavator" [], [.inheritedObject "toString"]) :=
  ⟨by decide,
    (vehicles_route_typemap (some demoToken) (some "topsecret") 1000 [] "quadcopters"
      demoPayload (by decide)).1 (by decide),
    (vehicles_route_typemap (some demoToken) (some "topsecret") 1000 [] "excavators"
      demoPayload (by decide)).2.1 "Excavator" (by decide),
    (vehicles_route_typemap (some demoToken) (some "topsecret") 1000 [] "toString"
      demoPayload (by decide)).2.2.1 "toString" (by decide)⟩

theorem macNat_inj {s a b c d a2 b2 c2 d2 : Nat}
    (h : macNat s a b c d = macNat s a2 b2 c2 d2) :
    a = a2 ∧ b = b2 ∧ c = c2 ∧ d = d2 := by
  unfold macNat at h
  rw [Nat.pair_eq_pair] at h
  obtain ⟨-, h⟩ := h
  rw [Nat.pair_eq_pair] at h
  obtain ⟨ha, h⟩ := h
  rw [Nat.pair_eq_pair] at h
  obtain ⟨hb, h⟩ := h
  rw [Nat.pair_eq_pair] at h
  exact ⟨ha, hb, h.1, h.2⟩

theorem decTok_append (W : Nat) (a b c d e : List Bool)
    (ha : a.length = W) (hb : b.length = W) (hc : c.length = W) (hd : d.length = W) :
    decTok W (a ++ (b ++ (c ++ (d ++ e))))
      = { id := decNat a, email := decNat b, iat := decNat c, exp := decNat d
          mac := decNat e } := by
  have t1 : (a ++ (b ++ (c ++ (d ++ e)))).take W = a := by
    rw [← ha]; exact take_length_append a _
  have d1 : (a ++ (b ++ (c ++ (d ++ e)))).drop W = b ++ (c ++ (d ++ e)) := by
    rw [← ha]; exact drop_length_append a _
  have t2 : (b ++ (c ++ (d ++ e))).take W = b := by
    rw [← hb]; exact take_length_append b _
  have d2 : (b ++ (c ++ (d ++ e))).drop W = c ++ (d ++ e) := by
    rw [← hb]; exact drop_length_append b _
  have t3 : (c ++ (d ++ e)).take W = c := by
    rw [← hc]; exact take_length_append c _
  have d3 : (c ++ (d ++ e)).drop W = d ++ e := by
    rw [← hc]; exact drop_length_append c _
  have t4 : (d ++ e).take W = d := by
    rw [← hd]; exact take_length_append d _
  have d4 : (d ++ e).drop W = e := by
    rw [← hd]; exact drop_length_append d _
  simp [decTok, t1, d1, t2, d2, t3, d3, t4, d4]

/-- C9: for a validly signed credential whose claims and MAC fit in `W`
bits per field, flipping any single bit of the wire artifact makes
verification reject the result. -/
theorem tamper_evidence (W secret id email iat exp now i : Nat)
    (hid : id < 2 ^ W) (hemail : email < 2 ^ W) (hiat : iat < 2 ^ W) (hexp : exp < 2 ^ W)
    (hmac : macNat secret id email iat exp < 2 ^ W)
    (hvalid : verifyN secret now (signN secret id email iat exp) = some (id, email))
    (hi : i < 5 * W) :
    verifyN secret now (decTok W (flipBit i (encTok W (signN secret id email iat exp))))
      = none := by
  have l1 : (encNat W id).length = W := encNat_length W id
  have l2 : (encNat W email).length = W := encNat_length W email
  have l3 : (encNat W iat).length = W := encNat_length W iat
  have l4 : (encNat W exp).length = W := encNat_length W exp
  have l5 : (encNat W (macNat secret id email iat exp)).length = W := encNat_length W _
  have henc : encTok W (signN secret id email iat exp)
      = encNat W id ++ (encNat W email ++ (encNat W iat ++ (encNat W exp
          ++ encNat W (macNat secret id email iat exp)))) := rfl
  rcases Nat.lt_or_ge i W with h1 | hge1
  · -- flip inside the id field
    rw [henc, flipBit_append_left _ _ (by rw [l1]; exact h1),
      decTok_append W _ _ _ _ _ ((flipBit_length _ _).trans l1) l2 l3 l4,
      decNat_encNat hemail, decNat_encNat hiat, decNat_encNat hexp, decNat_encNat hmac]
    unfold verifyN
    rw [if_neg]
    rintro ⟨hcond, -⟩
    have hne := decNat_flipBit (show i < (encNat W id).length by rw [l1]; exact h1)
    rw [decNat_encNat hid] at hne
    exact hne ((macNat_inj hcond).1.symm)
  rcases Nat.lt_or_ge i (2 * W) with h2 | hge2
  · -- flip inside the email field
    rw [henc, flipBit_append_right _ _ (by rw [l1]; exact hge1), l1,
      flipBit_append_left _ _ (by rw [l2]; omega),
      decTok_append W _ _ _ _ _ l1 ((flipBit_length _ _).trans l2) l3 l4,
      decNat_encNat hid, decNat_encNat hiat, decNat_encNat hexp, decNat_encNat hmac]
    unfold verifyN
    rw [if_neg]
    rintro ⟨hcond, -⟩
    have hne := decNat_flipBit (show i - W < (encNat W email).length by rw [l2]; omega)
    rw [decNat_encNat hemail] at hne
    exact hne ((macNat_inj hcond).2.1.symm)
  rcases Nat.lt_or_ge i (3 * W) with h3 | hge3
  · -- flip inside the iat field
    rw [henc, flipBit_append_right _ _ (by rw [l1]; omega), l1,
      flipBit_append_right _ _ (by rw [l2]; omega), l2,
      flipBit_append_left _ _ (by rw [l3]; omega),
      decTok_append W _ _ _ _ _ l1 l2 ((flipBit_length _ _).trans l3) l4,
      decNat_encNat hid, decNat_encNat hemail, decNat_encNat hexp, decNat_encNat hmac]
    unfold verifyN
    rw [if_neg]
    rintro ⟨hcond, -⟩
    have hne := decNat_flipBit (show i - W - W < (encNat W iat).length by rw [l3]; omega)
    rw [decNat_encNat hiat] at hne
    exact hne ((macNat_inj hcond).2.2.1.symm)
  rcases Nat.lt_or_ge i (4 * W) with h4 | hge4
  · -- flip inside the exp field
    rw [henc, flipBit_append_right _ _ (by rw [l1]; omega), l1,
      flipBit_append_right _ _ (by rw [l2]; omega), l2,
      flipBit_append_right _ _ (by rw [l3]; omega), l3,
      flipBit_append_left _ _ (by rw [l4]; omega),
      decTok_append W _ _ _ _ _ l1 l2 l3 ((flipBit_length _ _).trans l4),
      decNat_encNat hid, decNat_encNat hemail, decNat_encNat hiat, decNat_encNat hmac]
    unfold verifyN
    rw [if_neg]
    rintro ⟨hcond, -⟩
    have hne := decNat_flipBit
      (show i - W - W - W < (encNat W exp).length by rw [l4]; omega)
    rw [decNat_encNat hexp] at hne
    exact hne ((macNat_inj hcond).2.2.2.symm)
  · -- flip inside the mac field
    rw [henc, flipBit_append_right _ _ (by rw [l1]; omega), l1,
      flipBit_append_right _ _ (by rw [l2]; omega), l2,
      flipBit_append_right _ _ (by rw [l3]; omega), l3,
      flipBit_append_right _ _ (by rw [l4]; omega), l4,
      decTok_append W _ _ _ _ _ l1 l2 l3 l4,
      decNat_encNat hid, decNat_encNat hemail, decNat_encNat hiat, decNat_encNat hexp]
    unfold verifyN
    rw [if_neg]
    rintro ⟨hcond, -⟩
    have hne := decNat_flipBit
      (show i - W - W - W - W < (encNat W (macNat secret id email iat exp)).length by
        rw [l5]; omega)
    rw [decNat_encNat hmac] at hne
    exact hne hcond

/-- Witness for C9 at a concrete signed token and bit position. -/
theorem tamper_evidence_witness :
    verifyN 0 1 (signN 0 0 1 0 1) = some (0, 1)
    ∧ verifyN 0 1 (decTok 7 (flipBit 3 (encTok 7 (signN 0 0 1 0 1)))) = none :=
  ⟨by decide,
    tamper_evidence 7 0 0 1 0 1 1 3 (by decide) (by decide) (by decide) (by decide)
      (by decide) (by decide) (by decide)⟩
